import Mathlib

/-!
Shallow embedding of the A2A protocol demo (a2a_demo.py): the AgentCard /
TaskRequest / TaskResponse data model with its `asdict` wire encoding and
constructor-style decoding, the agent server and client operations
(handle_task_request, handle_discovery, discover_agent, send_task_request),
and the orchestrator pipeline (run_a2a_workflow).  Effects are made
explicit: generated ids and timestamps are passed as arguments, the HTTP
transport is an oracle function whose `none` result models a raised
network exception, and each operation returns the values the Python code
would return together with the registry state and the list of requests it
actually posted.
-/

/-- JSON-like wire values, as produced by `dataclasses.asdict` and
`web.json_response` in the source. -/
inductive Value where
  | null
  | bool (b : Bool)
  | int (n : Int)
  | str (s : String)
  | arr (elems : List Value)
  | obj (fields : List (String × Value))

/-- A `Dict[str, Any]` of the source: an ordered association list. -/
abbrev Params := List (String × Value)

/-- AgentCard dataclass (a2a_demo.py lines 19-30). -/
structure AgentCard where
  agent_id : String
  name : String
  description : String
  version : String
  capabilities : List String
  communication_protocols : List String
  endpoint : String
  authentication : Option (List (String × Value)) := none
  metadata : Option (List (String × Value)) := none

/-- TaskRequest dataclass (a2a_demo.py lines 32-41). -/
structure TaskRequest where
  task_id : String
  requesting_agent : String
  target_agent : String
  task_type : String
  parameters : Params
  timestamp : String
  callback_url : Option String := none

/-- TaskResponse dataclass (a2a_demo.py lines 43-51).  The `timestamp`
field has Python default `None`, hence an `Option`. -/
structure TaskResponse where
  task_id : String
  responding_agent : String
  status : String
  result : Option Params := none
  error : Option String := none
  timestamp : Option String := none

/-- Encoding of an optional string field under `asdict`. -/
def optStr : Option String → Value
  | none => Value.null
  | some s => Value.str s

/-- Encoding of an optional dict field under `asdict`. -/
def optObj : Option (List (String × Value)) → Value
  | none => Value.null
  | some ps => Value.obj ps

/-- `dataclasses.asdict` on an AgentCard. -/
def AgentCard.asdict (c : AgentCard) : List (String × Value) :=
  [("agent_id", Value.str c.agent_id),
   ("name", Value.str c.name),
   ("description", Value.str c.description),
   ("version", Value.str c.version),
   ("capabilities", Value.arr (c.capabilities.map Value.str)),
   ("communication_protocols", Value.arr (c.communication_protocols.map Value.str)),
   ("endpoint", Value.str c.endpoint),
   ("authentication", optObj c.authentication),
   ("metadata", optObj c.metadata)]

/-- `dataclasses.asdict` on a TaskRequest. -/
def TaskRequest.asdict (r : TaskRequest) : List (String × Value) :=
  [("task_id", Value.str r.task_id),
   ("requesting_agent", Value.str r.requesting_agent),
   ("target_agent", Value.str r.target_agent),
   ("task_type", Value.str r.task_type),
   ("parameters", Value.obj r.parameters),
   ("timestamp", Value.str r.timestamp),
   ("callback_url", optStr r.callback_url)]

/-- `dataclasses.asdict` on a TaskResponse. -/
def TaskResponse.asdict (r : TaskResponse) : List (String × Value) :=
  [("task_id", Value.str r.task_id),
   ("responding_agent", Value.str r.responding_agent),
   ("status", Value.str r.status),
   ("result", optObj r.result),
   ("error", optStr r.error),
   ("timestamp", optStr r.timestamp)]

/-- Decoding a JSON array of strings (the `capabilities` and
`communication_protocols` fields). -/
def decodeStrList (vs : List Value) : Option (List String) :=
  vs.mapM (fun v => match v with | Value.str s => some s | _ => none)

/-- Decoding an optional string field: an absent key or JSON null yields
the dataclass default `None`. -/
def decodeOptStr : Option Value → Option (Option String)
  | none => some none
  | some Value.null => some none
  | some (Value.str s) => some (some s)
  | some _ => none

/-- Decoding an optional dict field. -/
def decodeOptObj : Option Value → Option (Option (List (String × Value)))
  | none => some none
  | some Value.null => some none
  | some (Value.obj ps) => some (some ps)
  | some _ => none

/-- The keyword-argument constructor call `AgentCard(**data)`: every key
must be a field name, required fields must be present with values of the
annotated type; `none` models the raised TypeError. -/
def AgentCard.fromDict (d : List (String × Value)) : Option AgentCard :=
  if d.all (fun kv => ["agent_id", "name", "description", "version", "capabilities",
      "communication_protocols", "endpoint", "authentication", "metadata"].contains kv.1) then
    match d.lookup "agent_id", d.lookup "name", d.lookup "description", d.lookup "version",
        d.lookup "capabilities", d.lookup "communication_protocols", d.lookup "endpoint" with
    | some (Value.str aid), some (Value.str nm), some (Value.str ds), some (Value.str vr),
        some (Value.arr caps), some (Value.arr protos), some (Value.str ep) =>
      match decodeStrList caps, decodeStrList protos,
          decodeOptObj (d.lookup "authentication"), decodeOptObj (d.lookup "metadata") with
      | some caps', some protos', some auth, some md =>
        some ⟨aid, nm, ds, vr, caps', protos', ep, auth, md⟩
      | _, _, _, _ => none
    | _, _, _, _, _, _, _ => none
  else none

/-- The keyword-argument constructor call `TaskRequest(**data)`. -/
def TaskRequest.fromDict (d : List (String × Value)) : Option TaskRequest :=
  if d.all (fun kv => ["task_id", "requesting_agent", "target_agent", "task_type",
      "parameters", "timestamp", "callback_url"].contains kv.1) then
    match d.lookup "task_id", d.lookup "requesting_agent", d.lookup "target_agent",
        d.lookup "task_type", d.lookup "parameters", d.lookup "timestamp" with
    | some (Value.str tid), some (Value.str ra), some (Value.str ta), some (Value.str tt),
        some (Value.obj ps), some (Value.str ts) =>
      match decodeOptStr (d.lookup "callback_url") with
      | some cb => some ⟨tid, ra, ta, tt, ps, ts, cb⟩
      | none => none
    | _, _, _, _, _, _ => none
  else none

/-- The keyword-argument constructor call `TaskResponse(**data)`. -/
def TaskResponse.fromDict (d : List (String × Value)) : Option TaskResponse :=
  if d.all (fun kv => ["task_id", "responding_agent", "status", "result",
      "error", "timestamp"].contains kv.1) then
    match d.lookup "task_id", d.lookup "responding_agent", d.lookup "status" with
    | some (Value.str tid), some (Value.str ra), some (Value.str st) =>
      match decodeOptObj (d.lookup "result"), decodeOptStr (d.lookup "error"),
          decodeOptStr (d.lookup "timestamp") with
      | some res, some err, some ts => some ⟨tid, ra, st, res, err, ts⟩
      | _, _, _ => none
    | _, _, _ => none
  else none

/-- The `discovered_agents` dict of an agent: `agent_id` keyed cards. -/
abbrev Registry := List (String × AgentCard)

/-- Python dict assignment `d[card.agent_id] = card`: replace the entry in
place if the key exists, else append. -/
def upsertAgent : Registry → AgentCard → Registry
  | [], c => [(c.agent_id, c)]
  | (k, v) :: rest, c =>
    if k = c.agent_id then (k, c) :: rest else (k, v) :: upsertAgent rest c

/-- Modelled from the spec: `find_by_capability(tag)` returns the set of
known peer cards advertising `tag` (no such function exists in the source;
the registry is only the `discovered_agents` dict). -/
def find_by_capability (reg : Registry) (tag : String) : List AgentCard :=
  (reg.filter (fun kv => tag ∈ kv.2.capabilities)).map (fun kv => kv.2)

/-- An HTTP server reply: status code and JSON body.  `none` models an
exception escaping the handler (aiohttp then produces a 500, never a 200
with a body). -/
abbrev HttpReply := Nat × List (String × Value)

/-- Server side of HandleTask (a2a_demo.py lines 116-145).  `process` is
the capability handler `process_task`, whose `Except.error` result models
a raised exception caught by the handler's `except Exception` block; `now`
is the timestamp drawn from the clock.  Parsing of the body happens
outside the try block, so a malformed body yields `none` (no TaskResponse
at all); otherwise the reply is always `(200, asdict response)`. -/
def handle_task_request (self_agent_id : String)
    (process : TaskRequest → Except String Params) (now : String)
    (data : List (String × Value)) : Option HttpReply :=
  match TaskRequest.fromDict data with
  | none => none
  | some task_request =>
    match process task_request with
    | Except.ok result =>
      some (200, TaskResponse.asdict
        ⟨task_request.task_id, self_agent_id, "success", some result, none, some now⟩)
    | Except.error e =>
      some (200, TaskResponse.asdict
        ⟨task_request.task_id, self_agent_id, "error", none, some e, some now⟩)

/-- Server side of Discover (a2a_demo.py lines 96-113): constructs an
AgentCard from the body and stores it in `discovered_agents`
unconditionally, replying with this agent's own card.  A body the
constructor rejects escapes as an exception (`none`), leaving the
registry unchanged. -/
def handle_discovery (self_card : AgentCard) (discovered_agents : Registry)
    (data : List (String × Value)) : Option (Registry × HttpReply) :=
  match AgentCard.fromDict data with
  | none => none
  | some card =>
    some (upsertAgent discovered_agents card,
      (200, [("status", Value.str "discovered"),
             ("agent_card", Value.obj self_card.asdict)]))

/-- Client side of discovery (a2a_demo.py lines 153-171).  The transport
oracle maps the posted body to the peer's reply; `none` models a raised
network exception.  Every failure path is caught by the bare
`except Exception` and returns `None` with the registry untouched; only a
200 reply whose `agent_card` field constructs stores the peer. -/
def discover_agent (self_card : AgentCard) (reg : Registry)
    (transport : List (String × Value) → Option HttpReply) :
    Option AgentCard × Registry :=
  match transport self_card.asdict with
  | none => (none, reg)
  | some (status, data) =>
    if status = 200 then
      match data.lookup "agent_card" with
      | some (Value.obj cd) =>
        match AgentCard.fromDict cd with
        | some card => (some card, upsertAgent reg card)
        | none => (none, reg)
      | _ => (none, reg)
    else (none, reg)

/-- Client side of task sending (a2a_demo.py lines 174-206).  `freshId`
models the `uuid.uuid4()` draw and `now` the clock; the transport oracle
takes the target endpoint and the posted request dict.  The second
component of the result lists the TaskRequests actually posted, so an
early return posts none.  No check relates the reply's `task_id` to the
sent one: whatever `TaskResponse(**data)` yields on a 200 reply is
returned as is. -/
def send_task_request (self_card : AgentCard) (reg : Registry)
    (freshId now target_agent_id task_type : String) (parameters : Params)
    (transport : String → List (String × Value) → Option HttpReply) :
    Option TaskResponse × List TaskRequest :=
  match reg.lookup target_agent_id with
  | none => (none, [])
  | some target_agent =>
    let task_request : TaskRequest :=
      ⟨freshId, self_card.agent_id, target_agent_id, task_type, parameters, now, none⟩
    match transport target_agent.endpoint task_request.asdict with
    | none => (none, [task_request])
    | some (status, data) =>
      if status = 200 then
        match TaskResponse.fromDict data with
        | some response => (some response, [task_request])
        | none => (none, [task_request])
      else (none, [task_request])

/-- An agent as the orchestrator sees it (a2a_demo.py lines 317-328): its
card and its `send_task_request` behaviour, abstracted over task type and
parameters (the target id the orchestrator passes is always the agent's
own id, kept as an argument for fidelity). -/
structure OAgent where
  card : AgentCard
  send : String → String → Params → Option TaskResponse

/-- One `send_task_request` call issued by the orchestrator: the target
agent id, the task type and the parameters passed. -/
structure SendRec where
  target : String
  task_type : String
  parameters : Params

/-- The exceptions `run_a2a_workflow` can raise: the ValueError for
missing agents, the three step-failure Exceptions, and the uncaught
KeyError/TypeError raised when a step's `result[key]` extraction fails. -/
inductive WfError where
  | missingAgents
  | researchFailed
  | analysisFailed
  | reportingFailed
  | extractError (key : String)
deriving DecidableEq

/-- The Python message of each raised exception. -/
def WfError.message : WfError → String
  | WfError.missingAgents => "Missing required agents"
  | WfError.researchFailed => "Research task failed"
  | WfError.analysisFailed => "Analysis task failed"
  | WfError.reportingFailed => "Reporting task failed"
  | WfError.extractError k => k

/-- The dict returned by a completed workflow run (a2a_demo.py lines
406-417). -/
structure WfResult where
  query : String
  research_data : Value
  analysis_data : Value
  final_report : Value
  workflow_complete : Bool
  agents_used : List String

/-- The subscript `response.result[key]`: a `None` result raises a
TypeError and a missing key a KeyError, both uncaught. -/
def extractField (result : Option Params) (key : String) : Except WfError Value :=
  match result with
  | none => Except.error (WfError.extractError key)
  | some ps =>
    match ps.lookup key with
    | none => Except.error (WfError.extractError key)
    | some v => Except.ok v

/-- One iteration of the agent-selection loop (a2a_demo.py lines 356-362):
the if/elif chain assigns the researcher, analyst or reporter slot,
later agents overwriting earlier ones. -/
def selectStep (acc : Option OAgent × Option OAgent × Option OAgent) (ag : OAgent) :
    Option OAgent × Option OAgent × Option OAgent :=
  if "research" ∈ ag.card.capabilities then (some ag, acc.2.1, acc.2.2)
  else if "analysis" ∈ ag.card.capabilities then (acc.1, some ag, acc.2.2)
  else if "reporting" ∈ ag.card.capabilities then (acc.1, acc.2.1, some ag)
  else acc

/-- The agent-selection loop over `self.agents.values()` (insertion
order). -/
def selectAgents (agents : List OAgent) : Option OAgent × Option OAgent × Option OAgent :=
  agents.foldl selectStep (none, none, none)

/-- The three pipeline steps of `run_a2a_workflow` (a2a_demo.py lines
367-422), once the three agents are selected.  Each step issues one send
(recorded in order), treats a `None` or non-success response as the
step's Exception, extracts one named field of the result, and passes only
that field on under the next step's parameter key. -/
def runSteps (researcher analyst reporter : OAgent) (query : String) :
    Except WfError WfResult × List SendRec :=
  match researcher.send researcher.card.agent_id "research" [("topic", Value.str query)] with
  | none => (Except.error WfError.researchFailed,
      [⟨researcher.card.agent_id, "research", [("topic", Value.str query)]⟩])
  | some r1 =>
    if r1.status = "success" then
      match extractField r1.result "research_data" with
      | Except.error e => (Except.error e,
          [⟨researcher.card.agent_id, "research", [("topic", Value.str query)]⟩])
      | Except.ok research_data =>
        match analyst.send analyst.card.agent_id "analyze" [("research_data", research_data)] with
        | none => (Except.error WfError.analysisFailed,
            [⟨researcher.card.agent_id, "research", [("topic", Value.str query)]⟩,
             ⟨analyst.card.agent_id, "analyze", [("research_data", research_data)]⟩])
        | some r2 =>
          if r2.status = "success" then
            match extractField r2.result "analysis_result" with
            | Except.error e => (Except.error e,
                [⟨researcher.card.agent_id, "research", [("topic", Value.str query)]⟩,
                 ⟨analyst.card.agent_id, "analyze", [("research_data", research_data)]⟩])
            | Except.ok analysis_data =>
              match reporter.send reporter.card.agent_id "report" [("analysis_data", analysis_data)] with
              | none => (Except.error WfError.reportingFailed,
                  [⟨researcher.card.agent_id, "research", [("topic", Value.str query)]⟩,
                   ⟨analyst.card.agent_id, "analyze", [("research_data", research_data)]⟩,
                   ⟨reporter.card.agent_id, "report", [("analysis_data", analysis_data)]⟩])
              | some r3 =>
                if r3.status = "success" then
                  match extractField r3.result "final_report" with
                  | Except.error e => (Except.error e,
                      [⟨researcher.card.agent_id, "research", [("topic", Value.str query)]⟩,
                       ⟨analyst.card.agent_id, "analyze", [("research_data", research_data)]⟩,
                       ⟨reporter.card.agent_id, "report", [("analysis_data", analysis_data)]⟩])
                  | Except.ok final_report =>
                    (Except.ok ⟨query, research_data, analysis_data, final_report, true,
                        [researcher.card.agent_id, analyst.card.agent_id, reporter.card.agent_id]⟩,
                     [⟨researcher.card.agent_id, "research", [("topic", Value.str query)]⟩,
                      ⟨analyst.card.agent_id, "analyze", [("research_data", research_data)]⟩,
                      ⟨reporter.card.agent_id, "report", [("analysis_data", analysis_data)]⟩])
                else (Except.error WfError.reportingFailed,
                    [⟨researcher.card.agent_id, "research", [("topic", Value.str query)]⟩,
                     ⟨analyst.card.agent_id, "analyze", [("research_data", research_data)]⟩,
                     ⟨reporter.card.agent_id, "report", [("analysis_data", analysis_data)]⟩])
          else (Except.error WfError.analysisFailed,
              [⟨researcher.card.agent_id, "research", [("topic", Value.str query)]⟩,
               ⟨analyst.card.agent_id, "analyze", [("research_data", research_data)]⟩])
    else (Except.error WfError.researchFailed,
        [⟨researcher.card.agent_id, "research", [("topic", Value.str query)]⟩])

/-- The whole `run_a2a_workflow` (a2a_demo.py lines 346-422): select the
three agents by capability, raise the ValueError when a slot is empty
(before any send), then run the three steps. -/
def run_a2a_workflow (agents : List OAgent) (query : String) :
    Except WfError WfResult × List SendRec :=
  match selectAgents agents with
  | (some researcher, some analyst, some reporter) => runSteps researcher analyst reporter query
  | _ => (Except.error WfError.missingAgents, [])

/-- Round-trip lemma for TaskRequest: decoding the `asdict` encoding
recovers the value. -/
theorem taskRequest_roundtrip (r : TaskRequest) :
    TaskRequest.fromDict r.asdict = some r := by
  cases r with
  | mk tid ra ta tt ps ts cb => cases cb <;> rfl

/-- Round-trip lemma for TaskResponse: decoding the `asdict` encoding
recovers the value. -/
theorem taskResponse_roundtrip (r : TaskResponse) :
    TaskResponse.fromDict r.asdict = some r := by
  cases r with
  | mk tid ra st res err ts => cases res <;> cases err <;> cases ts <;> rfl

/-- The card stored by `upsertAgent` is found again under its id. -/
theorem lookup_upsertAgent (reg : Registry) (c : AgentCard) :
    (upsertAgent reg c).lookup c.agent_id = some c := by
  induction reg with
  | nil => simp [upsertAgent, List.lookup]
  | cons kv rest ih =>
    obtain ⟨k, v⟩ := kv
    by_cases hk : k = c.agent_id
    · simp [upsertAgent, hk, List.lookup]
    · have hne : (c.agent_id == k) = false := by
        simp [beq_iff_eq]
        exact fun h => hk h.symm
      simp [upsertAgent, hk, List.lookup, hne, ih]

/-- An agent without the research capability never fills the researcher
slot. -/
theorem selectStep_researcher (acc : Option OAgent × Option OAgent × Option OAgent)
    (ag : OAgent) (h : "research" ∉ ag.card.capabilities) :
    (selectStep acc ag).1 = acc.1 := by
  simp only [selectStep]
  split_ifs <;> rfl

/-- An agent without the analysis capability never fills the analyst
slot. -/
theorem selectStep_analyst (acc : Option OAgent × Option OAgent × Option OAgent)
    (ag : OAgent) (h : "analysis" ∉ ag.card.capabilities) :
    (selectStep acc ag).2.1 = acc.2.1 := by
  simp only [selectStep]
  split_ifs <;> rfl

/-- An agent without the reporting capability never fills the reporter
slot. -/
theorem selectStep_reporter (acc : Option OAgent × Option OAgent × Option OAgent)
    (ag : OAgent) (h : "reporting" ∉ ag.card.capabilities) :
    (selectStep acc ag).2.2 = acc.2.2 := by
  simp only [selectStep]
  split_ifs <;> rfl

/-- When no agent advertises research, the researcher slot stays empty. -/
theorem selectAgents_researcher_none (agents : List OAgent)
    (acc : Option OAgent × Option OAgent × Option OAgent)
    (h : ∀ ag ∈ agents, "research" ∉ ag.card.capabilities) :
    (agents.foldl selectStep acc).1 = acc.1 := by
  induction agents generalizing acc with
  | nil => rfl
  | cons a t ih =>
    have ha := h a (List.mem_cons_self a t)
    have ht : ∀ ag ∈ t, "research" ∉ ag.card.capabilities :=
      fun ag hm => h ag (List.mem_cons_of_mem a hm)
    rw [List.foldl_cons, ih _ ht, selectStep_researcher acc a ha]

/-- When no agent advertises analysis, the analyst slot stays empty. -/
theorem selectAgents_analyst_none (agents : List OAgent)
    (acc : Option OAgent × Option OAgent × Option OAgent)
    (h : ∀ ag ∈ agents, "analysis" ∉ ag.card.capabilities) :
    (agents.foldl selectStep acc).2.1 = acc.2.1 := by
  induction agents generalizing acc with
  | nil => rfl
  | cons a t ih =>
    have ha := h a (List.mem_cons_self a t)
    have ht : ∀ ag ∈ t, "analysis" ∉ ag.card.capabilities :=
      fun ag hm => h ag (List.mem_cons_of_mem a hm)
    rw [List.foldl_cons, ih _ ht, selectStep_analyst acc a ha]

/-- When no agent advertises reporting, the reporter slot stays empty. -/
theorem selectAgents_reporter_none (agents : List OAgent)
    (acc : Option OAgent × Option OAgent × Option OAgent)
    (h : ∀ ag ∈ agents, "reporting" ∉ ag.card.capabilities) :
    (agents.foldl selectStep acc).2.2 = acc.2.2 := by
  induction agents generalizing acc with
  | nil => rfl
  | cons a t ih =>
    have ha := h a (List.mem_cons_self a t)
    have ht : ∀ ag ∈ t, "reporting" ∉ ag.card.capabilities :=
      fun ag hm => h ag (List.mem_cons_of_mem a hm)
    rw [List.foldl_cons, ih _ ht, selectStep_reporter acc a ha]

/-- An empty slot sends the workflow to the missing-agents ValueError
before any send. -/
theorem run_a2a_workflow_missing (agents : List OAgent) (query : String)
    (h : (selectAgents agents).1 = none ∨ (selectAgents agents).2.1 = none
       ∨ (selectAgents agents).2.2 = none) :
    run_a2a_workflow agents query = (Except.error WfError.missingAgents, []) := by
  rcases hsel : selectAgents agents with ⟨r, a, p⟩
  rw [hsel] at h
  unfold run_a2a_workflow
  rw [hsel]
  rcases h with h | h | h
  · replace h : r = none := h
    subst h
    cases a <;> cases p <;> rfl
  · replace h : a = none := h
    subst h
    cases r <;> cases p <;> rfl
  · replace h : p = none := h
    subst h
    cases r <;> cases a <;> rfl

/-- The researcher card of the demo (a2a_demo.py lines 216-224, port
8001). -/
def researcherCard : AgentCard :=
  ⟨"researcher-001", "Research Agent", "Conducts research on given topics", "1.0.0",
   ["research", "fact-finding", "web-search"], ["A2A-v1"], "http://localhost:8001", none, none⟩

/-- The analyst card of the demo (a2a_demo.py lines 251-259, port
8002). -/
def analystCard : AgentCard :=
  ⟨"analyst-001", "Analysis Agent", "Analyzes research data and provides insights", "1.0.0",
   ["analysis", "insights", "data-processing"], ["A2A-v1"], "http://localhost:8002", none, none⟩

/-- The reporter card of the demo (a2a_demo.py lines 286-294, port
8003). -/
def reporterCard : AgentCard :=
  ⟨"reporter-001", "Report Agent", "Creates reports from analysis data", "1.0.0",
   ["reporting", "document-generation", "summarization"], ["A2A-v1"], "http://localhost:8003", none, none⟩

/-- A successful research result, shaped like
ResearcherA2AAgent.process_task output (a2a_demo.py lines 239-243). -/
def demoResearchResult : Params :=
  [("research_data", Value.str "RD"), ("topic", Value.str "X"),
   ("agent_id", Value.str "researcher-001")]

/-- A successful analysis result, shaped like
AnalystA2AAgent.process_task output (a2a_demo.py lines 274-278). -/
def demoAnalysisResult : Params :=
  [("analysis_result", Value.str "AR"), ("source_data_length", Value.int 2),
   ("agent_id", Value.str "analyst-001")]

/-- A successful report result, shaped like
ReporterA2AAgent.process_task output (a2a_demo.py lines 309-313). -/
def demoReportResult : Params :=
  [("final_report", Value.str "FR"), ("report_length", Value.int 2),
   ("agent_id", Value.str "reporter-001")]

/-- A researcher whose send always succeeds with `demoResearchResult`. -/
def demoResearcher : OAgent :=
  ⟨researcherCard, fun _ _ _ =>
    some ⟨"t-r", "researcher-001", "success", some demoResearchResult, none, some "ts1"⟩⟩

/-- An analyst whose send always succeeds with `demoAnalysisResult`. -/
def demoAnalyst : OAgent :=
  ⟨analystCard, fun _ _ _ =>
    some ⟨"t-a", "analyst-001", "success", some demoAnalysisResult, none, some "ts2"⟩⟩

/-- A reporter whose send always succeeds with `demoReportResult`. -/
def demoReporter : OAgent :=
  ⟨reporterCard, fun _ _ _ =>
    some ⟨"t-p", "reporter-001", "success", some demoReportResult, none, some "ts3"⟩⟩

/-- The three demo agents in registration order. -/
def demoAgents : List OAgent := [demoResearcher, demoAnalyst, demoReporter]

/-- An analyst whose send reports failure with the given error
message. -/
def failingAnalyst (msg : String) : OAgent :=
  ⟨analystCard, fun _ _ _ => some ⟨"t-a", "analyst-001", "error", none, some msg, some "ts2"⟩⟩

/-- A handler that always raises, with message "boom". -/
def demoFailingProcess : TaskRequest → Except String Params :=
  fun _ => Except.error "boom"

/-- A handler that always succeeds with `demoResearchResult`. -/
def demoOkProcess : TaskRequest → Except String Params :=
  fun _ => Except.ok demoResearchResult

/-- A concrete incoming task request. -/
def demoTaskReq : TaskRequest :=
  ⟨"task-1", "orchestrator", "researcher-001", "research",
   [("topic", Value.str "X")], "t0", none⟩

/-- C9: serializing a TaskRequest or a TaskResponse to its wire
dictionary with `asdict` and parsing that dictionary back through the
constructor yields a value identical to the original. -/
theorem c9_codec_roundtrip :
    (∀ r : TaskRequest, TaskRequest.fromDict r.asdict = some r) ∧
    (∀ r : TaskResponse, TaskResponse.fromDict r.asdict = some r) :=
  ⟨taskRequest_roundtrip, taskResponse_roundtrip⟩

/-- C1: when the capability handler `process_task` raises, HandleTask
replies HTTP 200 whose body is the wire form of a well-formed
TaskResponse with status "error" carrying the failure message; the
handler failure never surfaces as a non-200 reply. -/
theorem c1_handler_failure_is_200_error (self_agent_id now : String)
    (process : TaskRequest → Except String Params)
    (data : List (String × Value)) (req : TaskRequest) (msg : String)
    (hparse : TaskRequest.fromDict data = some req)
    (hfail : process req = Except.error msg) :
    handle_task_request self_agent_id process now data
      = some (200, TaskResponse.asdict
          ⟨req.task_id, self_agent_id, "error", none, some msg, some now⟩)
    ∧ TaskResponse.fromDict (TaskResponse.asdict
          ⟨req.task_id, self_agent_id, "error", none, some msg, some now⟩)
      = some ⟨req.task_id, self_agent_id, "error", none, some msg, some now⟩ :=
  ⟨by simp [handle_task_request, hparse, hfail], taskResponse_roundtrip _⟩

/-- C1 witness: the theorem applied to a concrete request and a handler
raising "boom". -/
theorem c1_witness :
    TaskRequest.fromDict demoTaskReq.asdict = some demoTaskReq
    ∧ demoFailingProcess demoTaskReq = Except.error "boom"
    ∧ (handle_task_request "researcher-001" demoFailingProcess "t1" demoTaskReq.asdict
        = some (200, TaskResponse.asdict
            ⟨"task-1", "researcher-001", "error", none, some "boom", some "t1"⟩)
      ∧ TaskResponse.fromDict (TaskResponse.asdict
            ⟨"task-1", "researcher-001", "error", none, some "boom", some "t1"⟩)
        = some ⟨"task-1", "researcher-001", "error", none, some "boom", some "t1"⟩) :=
  ⟨rfl, rfl,
   c1_handler_failure_is_200_error "researcher-001" "t1" demoFailingProcess
     demoTaskReq.asdict demoTaskReq "boom" rfl rfl⟩

/-- C4: for every incoming TaskRequest, the TaskResponse produced by
HandleTask echoes the request's task_id exactly, in the success branch
and in the error branch alike. -/
theorem c4_task_id_echo (self_agent_id now : String)
    (process : TaskRequest → Except String Params)
    (data : List (String × Value)) (req : TaskRequest)
    (hparse : TaskRequest.fromDict data = some req) :
    ∃ resp : TaskResponse,
      handle_task_request self_agent_id process now data = some (200, resp.asdict)
      ∧ TaskResponse.fromDict resp.asdict = some resp
      ∧ resp.task_id = req.task_id := by
  cases hp : process req with
  | ok result =>
    exact ⟨⟨req.task_id, self_agent_id, "success", some result, none, some now⟩,
      by simp [handle_task_request, hparse, hp], taskResponse_roundtrip _, rfl⟩
  | error e =>
    exact ⟨⟨req.task_id, self_agent_id, "error", none, some e, some now⟩,
      by simp [handle_task_request, hparse, hp], taskResponse_roundtrip _, rfl⟩

/-- C4 witness: the theorem applied to a concrete request with a
succeeding handler, and again with a raising handler. -/
theorem c4_witness :
    TaskRequest.fromDict demoTaskReq.asdict = some demoTaskReq
    ∧ (∃ resp : TaskResponse,
        handle_task_request "researcher-001" demoOkProcess "t1" demoTaskReq.asdict
          = some (200, resp.asdict)
        ∧ TaskResponse.fromDict resp.asdict = some resp
        ∧ resp.task_id = demoTaskReq.task_id)
    ∧ (∃ resp : TaskResponse,
        handle_task_request "researcher-001" demoFailingProcess "t1" demoTaskReq.asdict
          = some (200, resp.asdict)
        ∧ TaskResponse.fromDict resp.asdict = some resp
        ∧ resp.task_id = demoTaskReq.task_id) :=
  ⟨rfl,
   c4_task_id_echo "researcher-001" "t1" demoOkProcess demoTaskReq.asdict demoTaskReq rfl,
   c4_task_id_echo "researcher-001" "t1" demoFailingProcess demoTaskReq.asdict demoTaskReq rfl⟩

/-- C10: when the target agent id is not in `discovered_agents`,
send_task_request returns None before constructing or posting any
TaskRequest; the registry is only read, never written, by this
operation. -/
theorem c10_unknown_target_no_send (self_card : AgentCard) (reg : Registry)
    (freshId now target_agent_id task_type : String) (parameters : Params)
    (transport : String → List (String × Value) → Option HttpReply)
    (h : reg.lookup target_agent_id = none) :
    send_task_request self_card reg freshId now target_agent_id task_type parameters transport
      = (none, []) := by
  simp [send_task_request, h]

/-- C10 witness: the theorem applied to an empty registry. -/
theorem c10_witness :
    ([] : Registry).lookup "analyst-001" = none
    ∧ send_task_request researcherCard [] "id-1" "t0" "analyst-001" "analyze" []
        (fun _ _ => some (200, [])) = (none, []) :=
  ⟨rfl, c10_unknown_target_no_send researcherCard [] "id-1" "t0" "analyst-001" "analyze" []
    (fun _ _ => some (200, [])) rfl⟩

/-- A 200 reply whose TaskResponse carries a task_id different from any
id the sender would generate. -/
def mismatchReplyDict : List (String × Value) :=
  [("task_id", Value.str "mismatch-id"), ("responding_agent", Value.str "analyst-001"),
   ("status", Value.str "success"), ("result", Value.obj []), ("error", Value.null),
   ("timestamp", Value.str "t1")]

/-- C5 counterexample: a syntactically valid TaskResponse whose task_id
"mismatch-id" differs from the sent task_id "id-1" is returned as the
call's result; no ProtocolViolationError interrupts the call. -/
theorem c5_counterexample :
    (send_task_request researcherCard [("analyst-001", analystCard)] "id-1" "t0"
        "analyst-001" "analyze" [] (fun _ _ => some (200, mismatchReplyDict))).1
      = some ⟨"mismatch-id", "analyst-001", "success", some [], none, some "t1"⟩
    ∧ ("mismatch-id" : String) ≠ "id-1" :=
  ⟨rfl, by decide⟩

/-- C5 amended: send_task_request performs no task_id verification at
all; whatever TaskResponse parses from a 200 reply is returned as is,
even when its task_id differs from the freshly generated one. -/
theorem c5_amended_no_task_id_check (self_card target_card : AgentCard) (reg : Registry)
    (freshId now target_agent_id task_type : String) (parameters : Params)
    (transport : String → List (String × Value) → Option HttpReply)
    (data : List (String × Value)) (resp : TaskResponse)
    (hreg : reg.lookup target_agent_id = some target_card)
    (htr : transport target_card.endpoint
        (TaskRequest.asdict
          ⟨freshId, self_card.agent_id, target_agent_id, task_type, parameters, now, none⟩)
        = some (200, data))
    (hparse : TaskResponse.fromDict data = some resp)
    (_hmismatch : resp.task_id ≠ freshId) :
    send_task_request self_card reg freshId now target_agent_id task_type parameters transport
      = (some resp,
         [⟨freshId, self_card.agent_id, target_agent_id, task_type, parameters, now, none⟩]) := by
  simp [send_task_request, hreg, htr, hparse]

/-- C5 witness: the amended theorem applied to the mismatching reply. -/
theorem c5_witness :
    ([("analyst-001", analystCard)] : Registry).lookup "analyst-001" = some analystCard
    ∧ (fun (_ : String) (_ : List (String × Value)) => some ((200, mismatchReplyDict) : HttpReply))
        analystCard.endpoint
        (TaskRequest.asdict ⟨"id-1", researcherCard.agent_id, "analyst-001", "analyze", [], "t0", none⟩)
        = some (200, mismatchReplyDict)
    ∧ TaskResponse.fromDict mismatchReplyDict
        = some ⟨"mismatch-id", "analyst-001", "success", some [], none, some "t1"⟩
    ∧ ("mismatch-id" : String) ≠ "id-1"
    ∧ send_task_request researcherCard [("analyst-001", analystCard)] "id-1" "t0"
        "analyst-001" "analyze" [] (fun _ _ => some (200, mismatchReplyDict))
      = (some ⟨"mismatch-id", "analyst-001", "success", some [], none, some "t1"⟩,
         [⟨"id-1", researcherCard.agent_id, "analyst-001", "analyze", [], "t0", none⟩]) :=
  ⟨rfl, rfl, rfl, by decide,
   c5_amended_no_task_id_check researcherCard analystCard [("analyst-001", analystCard)]
     "id-1" "t0" "analyst-001" "analyze" [] (fun _ _ => some (200, mismatchReplyDict))
     mismatchReplyDict ⟨"mismatch-id", "analyst-001", "success", some [], none, some "t1"⟩
     rfl rfl rfl (by decide)⟩

/-- A card violating the spec's AgentCard invariants: empty capabilities
and a malformed endpoint. -/
def invalidCard : AgentCard :=
  ⟨"bad-001", "Bad Agent", "no capabilities at all", "1.0.0", [], [], "not a url", none, none⟩

/-- C6 counterexample: handle_discovery stores a card with empty
capabilities and a malformed endpoint without any validation and replies
with the discovery acknowledgement; no InvalidCardError exists and the
registry is mutated. -/
theorem c6_counterexample :
    handle_discovery researcherCard [] invalidCard.asdict
      = some ([("bad-001", invalidCard)],
          (200, [("status", Value.str "discovered"),
                 ("agent_card", Value.obj researcherCard.asdict)]))
    ∧ invalidCard.capabilities = [] :=
  ⟨rfl, rfl⟩

/-- C6 amended: handle_discovery validates nothing beyond the
constructor's field names and types; every card that constructs is
upserted unconditionally and is found in the registry afterwards,
whatever its capabilities or endpoint; only a body the constructor
rejects aborts, and then without mutation. -/
theorem c6_amended_stores_unconditionally (self_card : AgentCard) (reg : Registry)
    (data : List (String × Value)) (card : AgentCard)
    (hparse : AgentCard.fromDict data = some card) :
    handle_discovery self_card reg data
      = some (upsertAgent reg card,
          (200, [("status", Value.str "discovered"),
                 ("agent_card", Value.obj self_card.asdict)]))
    ∧ (upsertAgent reg card).lookup card.agent_id = some card :=
  ⟨by simp [handle_discovery, hparse], lookup_upsertAgent reg card⟩

/-- C6 witness: the amended theorem applied to the invalid card. -/
theorem c6_witness :
    AgentCard.fromDict invalidCard.asdict = some invalidCard
    ∧ (handle_discovery researcherCard [] invalidCard.asdict
        = some (upsertAgent [] invalidCard,
            (200, [("status", Value.str "discovered"),
                   ("agent_card", Value.obj researcherCard.asdict)]))
      ∧ (upsertAgent [] invalidCard).lookup invalidCard.agent_id = some invalidCard) :=
  ⟨rfl, c6_amended_stores_unconditionally researcherCard [] invalidCard.asdict invalidCard rfl⟩

/-- C7 counterexample: discovery against an unreachable endpoint (the
transport raises) and against a non-200 reply both return a plain None
with the registry untouched — no DiscoveryError is raised anywhere, the
bare except swallows every failure. -/
theorem c7_counterexample :
    discover_agent researcherCard [] (fun _ => none) = (none, [])
    ∧ discover_agent researcherCard [] (fun _ => some (500, [])) = (none, [])
    ∧ find_by_capability [] "analysis" = [] :=
  ⟨rfl, rfl, rfl⟩

/-- C7 amended: on transport failure or a non-200 status, discover_agent
returns None (the cause is only printed, never raised as a
DiscoveryError) and the registry is unchanged, so with an initially
empty registry a subsequent find_by_capability lookup returns the empty
set. -/
theorem c7_amended_failure_returns_none (self_card : AgentCard) (reg : Registry)
    (transport : List (String × Value) → Option HttpReply) (tag : String)
    (h : transport self_card.asdict = none
       ∨ ∃ st body, transport self_card.asdict = some (st, body) ∧ st ≠ 200) :
    discover_agent self_card reg transport = (none, reg)
    ∧ (reg = [] → find_by_capability (discover_agent self_card reg transport).2 tag = []) := by
  have hmain : discover_agent self_card reg transport = (none, reg) := by
    rcases h with h | ⟨st, body, htr, hst⟩
    · simp [discover_agent, h]
    · simp [discover_agent, htr, hst]
  exact ⟨hmain, fun hreg => by rw [hmain, hreg]; rfl⟩

/-- C7 witness: the amended theorem applied to a transport answering
503. -/
theorem c7_witness :
    ((fun (_ : List (String × Value)) => some ((503, []) : HttpReply)) researcherCard.asdict = none
      ∨ ∃ st body, (fun (_ : List (String × Value)) => some ((503, []) : HttpReply))
          researcherCard.asdict = some (st, body) ∧ st ≠ 200)
    ∧ (discover_agent researcherCard [] (fun _ => some (503, [])) = (none, [])
      ∧ (([] : Registry) = [] →
          find_by_capability (discover_agent researcherCard [] (fun _ => some (503, []))).2
            "analysis" = [])) :=
  ⟨Or.inr ⟨503, [], rfl, by decide⟩,
   c7_amended_failure_returns_none researcherCard [] (fun _ => some (503, [])) "analysis"
     (Or.inr ⟨503, [], rfl, by decide⟩)⟩

/-- C2 amended: a run whose three steps all succeed issues exactly three
sends in the fixed order research, analyze, report; the analyze
parameters are the single "research_data" field extracted from the
research result (not the whole result mapping), the report parameters
are the "analysis_result" field re-keyed as "analysis_data", and the run
returns a dict holding the query, the two extracted intermediates and
the extracted "final_report" field (not the reporter's whole result
mapping). -/
theorem c2_amended_pipeline (agents : List OAgent) (query : String)
    (R A P : OAgent) (r1 r2 r3 : TaskResponse) (rd ad fr : Value)
    (hsel : selectAgents agents = (some R, some A, some P))
    (h1 : R.send R.card.agent_id "research" [("topic", Value.str query)] = some r1)
    (h1s : r1.status = "success")
    (h1e : extractField r1.result "research_data" = Except.ok rd)
    (h2 : A.send A.card.agent_id "analyze" [("research_data", rd)] = some r2)
    (h2s : r2.status = "success")
    (h2e : extractField r2.result "analysis_result" = Except.ok ad)
    (h3 : P.send P.card.agent_id "report" [("analysis_data", ad)] = some r3)
    (h3s : r3.status = "success")
    (h3e : extractField r3.result "final_report" = Except.ok fr) :
    run_a2a_workflow agents query
      = (Except.ok ⟨query, rd, ad, fr, true,
            [R.card.agent_id, A.card.agent_id, P.card.agent_id]⟩,
         [⟨R.card.agent_id, "research", [("topic", Value.str query)]⟩,
          ⟨A.card.agent_id, "analyze", [("research_data", rd)]⟩,
          ⟨P.card.agent_id, "report", [("analysis_data", ad)]⟩]) := by
  unfold run_a2a_workflow
  rw [hsel]
  dsimp only
  unfold runSteps
  rw [h1]
  dsimp only
  rw [h1s, if_pos rfl, h1e]
  dsimp only
  rw [h2]
  dsimp only
  rw [h2s, if_pos rfl, h2e]
  dsimp only
  rw [h3]
  dsimp only
  rw [h3s, if_pos rfl, h3e]

/-- C2 witness: the amended theorem applied to the three demo agents,
all succeeding. -/
theorem c2_witness :
    selectAgents demoAgents = (some demoResearcher, some demoAnalyst, some demoReporter)
    ∧ demoResearcher.send demoResearcher.card.agent_id "research" [("topic", Value.str "X")]
        = some ⟨"t-r", "researcher-001", "success", some demoResearchResult, none, some "ts1"⟩
    ∧ extractField (some demoResearchResult) "research_data" = Except.ok (Value.str "RD")
    ∧ demoAnalyst.send demoAnalyst.card.agent_id "analyze" [("research_data", Value.str "RD")]
        = some ⟨"t-a", "analyst-001", "success", some demoAnalysisResult, none, some "ts2"⟩
    ∧ extractField (some demoAnalysisResult) "analysis_result" = Except.ok (Value.str "AR")
    ∧ demoReporter.send demoReporter.card.agent_id "report" [("analysis_data", Value.str "AR")]
        = some ⟨"t-p", "reporter-001", "success", some demoReportResult, none, some "ts3"⟩
    ∧ extractField (some demoReportResult) "final_report" = Except.ok (Value.str "FR")
    ∧ run_a2a_workflow demoAgents "X"
        = (Except.ok ⟨"X", Value.str "RD", Value.str "AR", Value.str "FR", true,
              ["researcher-001", "analyst-001", "reporter-001"]⟩,
           [⟨"researcher-001", "research", [("topic", Value.str "X")]⟩,
            ⟨"analyst-001", "analyze", [("research_data", Value.str "RD")]⟩,
            ⟨"reporter-001", "report", [("analysis_data", Value.str "AR")]⟩]) :=
  ⟨rfl, rfl, rfl, rfl, rfl, rfl, rfl,
   c2_amended_pipeline demoAgents "X" demoResearcher demoAnalyst demoReporter
     ⟨"t-r", "researcher-001", "success", some demoResearchResult, none, some "ts1"⟩
     ⟨"t-a", "analyst-001", "success", some demoAnalysisResult, none, some "ts2"⟩
     ⟨"t-p", "reporter-001", "success", some demoReportResult, none, some "ts3"⟩
     (Value.str "RD") (Value.str "AR") (Value.str "FR")
     rfl rfl rfl rfl rfl rfl rfl rfl rfl rfl⟩

/-- C2 counterexample: in a run where the research response's result
mapping has three entries, the parameters of the second (analyze) send
are the single extracted "research_data" entry, not that result mapping
verbatim. -/
theorem c2_counterexample :
    demoResearcher.send "researcher-001" "research" [("topic", Value.str "X")]
      = some ⟨"t-r", "researcher-001", "success", some demoResearchResult, none, some "ts1"⟩
    ∧ (run_a2a_workflow demoAgents "X").2.map SendRec.parameters
      = [[("topic", Value.str "X")],
         [("research_data", Value.str "RD")],
         [("analysis_data", Value.str "AR")]]
    ∧ ([("research_data", Value.str "RD")] : Params) ≠ demoResearchResult :=
  ⟨rfl, rfl, by
    intro h
    have hlen := congrArg List.length h
    simp [demoResearchResult] at hlen⟩

/-- C3 amended: when the research step succeeded but the analysis step
yields no response or a non-success response, the run issues exactly the
research and analyze sends — the reporting-step task is never issued —
and terminates with the fixed Exception message "Analysis task failed",
which does not carry the analysis response's own error text. -/
theorem c3_amended_analysis_failure_stops_run (agents : List OAgent) (query : String)
    (R A P : OAgent) (r1 : TaskResponse) (rd : Value)
    (hsel : selectAgents agents = (some R, some A, some P))
    (h1 : R.send R.card.agent_id "research" [("topic", Value.str query)] = some r1)
    (h1s : r1.status = "success")
    (h1e : extractField r1.result "research_data" = Except.ok rd)
    (h2f : A.send A.card.agent_id "analyze" [("research_data", rd)] = none
        ∨ ∃ r2, A.send A.card.agent_id "analyze" [("research_data", rd)] = some r2
            ∧ r2.status ≠ "success") :
    run_a2a_workflow agents query
      = (Except.error WfError.analysisFailed,
         [⟨R.card.agent_id, "research", [("topic", Value.str query)]⟩,
          ⟨A.card.agent_id, "analyze", [("research_data", rd)]⟩])
    ∧ WfError.message WfError.analysisFailed = "Analysis task failed"
    ∧ ∀ s ∈ (run_a2a_workflow agents query).2, s.task_type ≠ "report" := by
  have hmain : run_a2a_workflow agents query
      = (Except.error WfError.analysisFailed,
         [⟨R.card.agent_id, "research", [("topic", Value.str query)]⟩,
          ⟨A.card.agent_id, "analyze", [("research_data", rd)]⟩]) := by
    unfold run_a2a_workflow
    rw [hsel]
    dsimp only
    unfold runSteps
    rw [h1]
    dsimp only
    rw [h1s, if_pos rfl, h1e]
    dsimp only
    rcases h2f with h2f | ⟨r2, h2, h2s⟩
    · rw [h2f]
    · rw [h2]
      dsimp only
      rw [if_neg h2s]
  refine ⟨hmain, rfl, ?_⟩
  rw [hmain]
  intro s hs
  simp only [List.mem_cons, List.not_mem_nil, or_false] at hs
  rcases hs with hs | hs <;> subst hs <;> simp

/-- C3 counterexample: two runs whose analysis steps fail with different
underlying causes ("rate limited" versus "quota exceeded") produce
byte-identical outcomes, and the terminal failure message is the fixed
"Analysis task failed" — the underlying cause is not reported. -/
theorem c3_counterexample :
    run_a2a_workflow [demoResearcher, failingAnalyst "rate limited", demoReporter] "X"
      = run_a2a_workflow [demoResearcher, failingAnalyst "quota exceeded", demoReporter] "X"
    ∧ (failingAnalyst "rate limited").send "analyst-001" "analyze"
        [("research_data", Value.str "RD")]
      = some ⟨"t-a", "analyst-001", "error", none, some "rate limited", some "ts2"⟩
    ∧ (run_a2a_workflow [demoResearcher, failingAnalyst "rate limited", demoReporter] "X").1
      = Except.error WfError.analysisFailed
    ∧ WfError.message WfError.analysisFailed = "Analysis task failed"
    ∧ ("Analysis task failed" : String) ≠ "rate limited" :=
  ⟨rfl, rfl, rfl, rfl, by decide⟩

/-- C3 witness: the amended theorem applied to a run whose analyst
responds status "error" with message "rate limited". -/
theorem c3_witness :
    selectAgents [demoResearcher, failingAnalyst "rate limited", demoReporter]
      = (some demoResearcher, some (failingAnalyst "rate limited"), some demoReporter)
    ∧ demoResearcher.send demoResearcher.card.agent_id "research" [("topic", Value.str "X")]
        = some ⟨"t-r", "researcher-001", "success", some demoResearchResult, none, some "ts1"⟩
    ∧ extractField (some demoResearchResult) "research_data" = Except.ok (Value.str "RD")
    ∧ (∃ r2, (failingAnalyst "rate limited").send (failingAnalyst "rate limited").card.agent_id
          "analyze" [("research_data", Value.str "RD")] = some r2 ∧ r2.status ≠ "success")
    ∧ (run_a2a_workflow [demoResearcher, failingAnalyst "rate limited", demoReporter] "X"
        = (Except.error WfError.analysisFailed,
           [⟨"researcher-001", "research", [("topic", Value.str "X")]⟩,
            ⟨"analyst-001", "analyze", [("research_data", Value.str "RD")]⟩])
      ∧ WfError.message WfError.analysisFailed = "Analysis task failed"
      ∧ ∀ s ∈ (run_a2a_workflow
            [demoResearcher, failingAnalyst "rate limited", demoReporter] "X").2,
          s.task_type ≠ "report") :=
  ⟨rfl, rfl, rfl,
   ⟨⟨"t-a", "analyst-001", "error", none, some "rate limited", some "ts2"⟩, rfl, by decide⟩,
   c3_amended_analysis_failure_stops_run
     [demoResearcher, failingAnalyst "rate limited", demoReporter] "X"
     demoResearcher (failingAnalyst "rate limited") demoReporter
     ⟨"t-r", "researcher-001", "success", some demoResearchResult, none, some "ts1"⟩
     (Value.str "RD") rfl rfl rfl rfl
     (Or.inr ⟨⟨"t-a", "analyst-001", "error", none, some "rate limited", some "ts2"⟩,
       rfl, by decide⟩)⟩

/-- C8: when no known agent advertises one of the required capabilities
(research, analysis or reporting), the run raises the missing-agents
error immediately and issues no task send at all. -/
theorem c8_missing_capability_fails_before_send (agents : List OAgent) (query : String)
    (h : (∀ ag ∈ agents, "research" ∉ ag.card.capabilities)
       ∨ (∀ ag ∈ agents, "analysis" ∉ ag.card.capabilities)
       ∨ (∀ ag ∈ agents, "reporting" ∉ ag.card.capabilities)) :
    run_a2a_workflow agents query = (Except.error WfError.missingAgents, []) := by
  apply run_a2a_workflow_missing
  rcases h with h | h | h
  · exact Or.inl (selectAgents_researcher_none agents (none, none, none) h)
  · exact Or.inr (Or.inl (selectAgents_analyst_none agents (none, none, none) h))
  · exact Or.inr (Or.inr (selectAgents_reporter_none agents (none, none, none) h))

/-- C8 witness: the theorem applied to a pool holding only the
researcher and the reporter, so that no agent advertises analysis. -/
theorem c8_witness :
    ((∀ ag ∈ ([demoResearcher, demoReporter] : List OAgent), "research" ∉ ag.card.capabilities)
      ∨ (∀ ag ∈ ([demoResearcher, demoReporter] : List OAgent), "analysis" ∉ ag.card.capabilities)
      ∨ (∀ ag ∈ ([demoResearcher, demoReporter] : List OAgent), "reporting" ∉ ag.card.capabilities))
    ∧ run_a2a_workflow [demoResearcher, demoReporter] "X"
        = (Except.error WfError.missingAgents, []) :=
  ⟨Or.inr (Or.inl (by decide)),
   c8_missing_capability_fails_before_send [demoResearcher, demoReporter] "X"
     (Or.inr (Or.inl (by decide)))⟩
